import Mathlib

/-!
Shallow embedding of the vispy `oogl` buffer/texture subsystem
(`vispy/oogl/buffer.py` and `vispy/oogl/texture.py`).

Python objects become Lean structures; mutating methods become functions
from state to state; calls that can raise become `Except String`, carrying
the exact exception message of the source.  numpy arrays are modelled by
their metadata (dtype and shape); texture arrays additionally carry their
scalar payload as rationals, since `convert_data` computes on the values.
The model covers one level of structured dtypes (named fields of scalar or
subarray type), which is all the source exercises.
-/

set_option autoImplicit false

/-- The numpy scalar base types that the source code can meet. -/
inductive BaseType where
  | boolT
  | int8 | int16 | int32 | int64
  | uint8 | uint16 | uint32 | uint64
  | float16 | float32 | float64
deriving DecidableEq, Inhabited

/-- numpy `dtype.itemsize` for a scalar type. -/
def BaseType.itemsize : BaseType → Nat
  | .boolT => 1 | .int8 => 1 | .uint8 => 1
  | .int16 => 2 | .uint16 => 2 | .float16 => 2
  | .int32 => 4 | .uint32 => 4 | .float32 => 4
  | .int64 => 8 | .uint64 => 8 | .float64 => 8

/-- numpy `dtype.name` for a scalar type, as used in the allow-list lookups
and in error messages. -/
def BaseType.npname : BaseType → String
  | .boolT => "bool"
  | .int8 => "int8" | .int16 => "int16" | .int32 => "int32" | .int64 => "int64"
  | .uint8 => "uint8" | .uint16 => "uint16" | .uint32 => "uint32" | .uint64 => "uint64"
  | .float16 => "float16" | .float32 => "float32" | .float64 => "float64"

/-- The bit width that `convert_data` parses out of the dtype name
(`int(data.dtype.name[3:])` resp. `int(data.dtype.name[4:])`). -/
def BaseType.bits : BaseType → Nat
  | .int8 => 8 | .int16 => 16 | .int32 => 32 | .int64 => 64
  | .uint8 => 8 | .uint16 => 16 | .uint32 => 32 | .uint64 => 64
  | .boolT => 8 | .float16 => 16 | .float32 => 32 | .float64 => 64

/-- One named field of a structured numpy dtype: name, scalar base type and
subarray shape (`[]` for a plain scalar field), e.g. `('position', 'f4', 3)`. -/
structure StructField where
  fieldName : String
  base : BaseType
  fshape : List Nat
deriving DecidableEq, Inhabited

/-- Byte size of one field inside a structured element
(base itemsize times the product of the subarray shape). -/
def StructField.byteSize (f : StructField) : Nat := f.base.itemsize * f.fshape.prod

/-- A numpy dtype as the source uses it: a plain scalar, a subarray dtype such
as `('f4', (3,))`, or a structured dtype with named fields. -/
inductive NpDtype where
  | scalar (b : BaseType)
  | subarr (b : BaseType) (shape : List Nat)
  | structured (fields : List StructField)
deriving DecidableEq, Inhabited

/-- numpy `dtype.itemsize`. -/
def NpDtype.itemsize : NpDtype → Nat
  | .scalar b => b.itemsize
  | .subarr b s => b.itemsize * s.prod
  | .structured fs => (fs.map StructField.byteSize).sum

/-- numpy `dtype.base`: strips a subarray shape; for a scalar or structured
dtype, `base` is the dtype itself. -/
def NpDtype.base : NpDtype → NpDtype
  | .scalar b => .scalar b
  | .subarr b _ => .scalar b
  | .structured fs => .structured fs

/-- Truthiness of numpy `dtype.fields` (`None` for non-structured dtypes). -/
def NpDtype.hasFields : NpDtype → Bool
  | .structured _ => true
  | _ => false

/-- numpy `dtype.shape` (the subarray shape, `()` otherwise). -/
def NpDtype.shape : NpDtype → List Nat
  | .subarr _ s => s
  | _ => []

/-- `dtype[name]` for a field: keeps the subarray shape (the source stresses
"not .base! so it has the vsize"). -/
def StructField.toDtype (f : StructField) : NpDtype :=
  if f.fshape = [] then .scalar f.base else .subarr f.base f.fshape

/-- The loop `while dtype.fields and len(dtype.fields) == 1: dtype =
dtype[dtype.names[0]]`.  With one level of structure the loop runs at most
once: the extracted field dtype is a scalar or subarray and has no fields. -/
def NpDtype.unwrapSingle : NpDtype → NpDtype
  | .structured [f] => f.toDtype
  | d => d

/-- A host numpy array, reduced to the metadata the buffer code reads:
its dtype and its shape.  The buffer layer never looks at element values
(pending writes queue the array wholesale). -/
structure NDArray where
  dtype : NpDtype
  shape : List Nat
deriving DecidableEq, Inhabited

/-- numpy `array.size` (number of elements). -/
def NDArray.size (a : NDArray) : Nat := a.shape.prod

/-- numpy `array.nbytes`: element count times dtype itemsize, regardless of
striding or contiguity of the underlying storage. -/
def NDArray.nbytes (a : NDArray) : Nat := a.size * a.dtype.itemsize

/-- numpy `array.ndim`. -/
def NDArray.ndim (a : NDArray) : Nat := a.shape.length

/-- The loop `while data.dtype.fields and len(data.dtype.fields) == 1:
data = data[data.dtype.names[0]]`.  Extracting the unique field of a
structured array yields a scalar-dtype array whose shape is the outer shape
with the field subarray shape appended; its `nbytes` is unchanged. -/
def NDArray.unwrapSingle : NDArray → NDArray
  | ⟨.structured [f], s⟩ => ⟨.scalar f.base, s ++ f.fshape⟩
  | a => a

/-- The test `data.base is not data` in `VertexBuffer._parse_array`.
For every numpy array, `base` is either `None` (an owning array) or a
different array object (a view); it is never the array object itself, so
this test is identically true.  (The surrounding comment says the branch is
meant for the view case only, but as written it fires for every array.) -/
def base_is_not_data (_ : NDArray) : Bool := true

/-- `(dtype, vsize, stride)` as produced by the `_parse_dtype` overloads;
`(dtype, vsize, stride, count)` for `_parse_array`. -/
abbrev DtypeInfo := NpDtype × Nat × Nat
abbrev ArrayInfo := NpDtype × Nat × Nat × Nat

/-- `VertexBuffer._parse_dtype`: unwrap a single-field structure, then take
`dtype.base`, `stride = dtype.itemsize`, and a vector size which is the sum
of per-field flattened sizes for a structured dtype, the flattened subarray
size for a subarray dtype, and 1 for a plain scalar. -/
def vertex_parse_dtype (dtype0 : NpDtype) : DtypeInfo :=
  let dtype := dtype0.unwrapSingle
  let dtype_ := dtype.base
  let stride := dtype.itemsize
  let vsize : Nat :=
    match dtype with
    | .structured fs => (fs.map (fun f => f.fshape.prod)).sum
    | .subarr _ s => s.prod
    | .scalar _ => 1
  (dtype_, vsize, stride)

/-- `VertexBuffer._parse_array`.  Note the final `if data.base is not data:
stride = dtype.itemsize * vsize`, where `dtype` is the value returned by
`_parse_dtype` (for a multi-field structured array this is the structured
dtype itself, whose itemsize is the whole element's byte size). -/
def vertex_parse_array (data0 : NDArray) : ArrayInfo :=
  let data := data0.unwrapSingle
  let info := vertex_parse_dtype data.dtype
  let dtype := info.1
  let vsize0 := info.2.1
  let stride0 := info.2.2
  let vc : Nat × Nat :=
    if dtype.hasFields then
      (vsize0, data.size)
    else if data.ndim ≤ 1 then
      (1, data.size)
    else
      (data.shape.getLastD 0, data.shape.dropLast.prod)
  let stride := if base_is_not_data data then dtype.itemsize * vc.1 else stride0
  (dtype, vc.1, stride, vc.2)

/-- `ElementBuffer._parse_dtype`: structured dtypes are rejected; indices are
scalars, so `vsize = 1` and `stride = dtype.itemsize`. -/
def element_parse_dtype (dtype : NpDtype) : Except String DtypeInfo :=
  if dtype.hasFields then
    .error "ElementBuffer does not support structured dtype."
  else
    .ok (dtype.base, 1, dtype.itemsize)

/-- `ElementBuffer._parse_array`: structured arrays are rejected; the count is
simply the array size. -/
def element_parse_array (data : NDArray) : Except String ArrayInfo :=
  if data.dtype.hasFields then
    .error "ElementBuffer does not support structured arrays."
  else do
    let (dtype, vsize, stride) ← element_parse_dtype data.dtype
    .ok (dtype, vsize, stride, data.size)

/-- The two concrete `DataBuffer` kinds (`GL_ARRAY_BUFFER` vs
`GL_ELEMENT_ARRAY_BUFFER` targets). -/
inductive BufKind where
  | vertex
  | element
deriving DecidableEq, Inhabited

/-- Dynamic dispatch of `self._parse_array`. -/
def parse_array : BufKind → NDArray → Except String ArrayInfo
  | .vertex, a => .ok (vertex_parse_array a)
  | .element, a => element_parse_array a

/-- Dynamic dispatch of `self._parse_dtype`. -/
def parse_dtype : BufKind → NpDtype → Except String DtypeInfo
  | .vertex, d => .ok (vertex_parse_dtype d)
  | .element, d => element_parse_dtype d

/-- Byte-level buffer state (`Buffer` in `buffer.py`) together with the typed
layer that `DataBuffer` adds on top of it.  `handle` comes from the `GLObject`
base class, which is outside the sources; modelled from the spec: an opaque
GPU identifier, 0 while uncreated.  A pending write is a
`(data, nbytes, byte_offset)` triple, applied in queue order. -/
structure DataBuffer where
  kind : BufKind
  handle : Nat
  nbytes : Nat
  need_resize : Bool
  need_update : Bool
  pending_data : List (NDArray × Nat × Nat)
  offset : Nat
  dtype : NpDtype
  vsize : Nat
  stride : Nat
  count : Nat
deriving DecidableEq, Inhabited

/-- `Buffer.set_nbytes`: record the new byte size (marking a resize when it
differs) and unconditionally clear the queue of pending sub-writes. -/
def Buffer_set_nbytes (b : DataBuffer) (nbytes : Nat) : DataBuffer :=
  let b := if b.nbytes ≠ nbytes then { b with nbytes := nbytes, need_resize := true } else b
  { b with pending_data := [] }

/-- `Buffer.set_data`: set the byte size from the array, then enqueue a single
full-range write at offset 0 (the queue was just cleared by `set_nbytes`). -/
def Buffer_set_data (b : DataBuffer) (data : NDArray) : DataBuffer :=
  let b := Buffer_set_nbytes b data.nbytes
  { b with pending_data := b.pending_data ++ [(data, data.nbytes, 0)], need_update := true }

/-- `Buffer.set_subdata`: requires space already allocated and the offsetted
data to fit in `nbytes`; enqueues the write.  The byte offset is produced by
`DataBuffer.set_subdata`, which has already checked it to be non-negative. -/
def Buffer_set_subdata (b : DataBuffer) (offset : Nat) (data : NDArray) :
    Except String DataBuffer :=
  if b.nbytes = 0 then
    .error "Cannot set subdata if there is no space allocated."
  else if offset + data.nbytes > b.nbytes then
    .error "Offseted data is too big for buffer."
  else
    .ok { b with pending_data := b.pending_data ++ [(data, data.nbytes, offset)],
                 need_update := true }

/-- `DataBuffer.set_count`: store the count and recompute the byte capacity as
`count * stride` (which clears all pending sub-writes via `set_nbytes`). -/
def DataBuffer.set_count (b : DataBuffer) (count : Nat) : DataBuffer :=
  let b := { b with count := count }
  Buffer_set_nbytes b (b.count * b.stride)

/-- `DataBuffer.set_data`: unwrap a single-field structure, parse the array,
require dtype/vsize/stride to match the buffer exactly, then update the count
and delegate to `Buffer.set_data`. -/
def DataBuffer.set_data (b : DataBuffer) (data0 : NDArray) : Except String DataBuffer := do
  let data := data0.unwrapSingle
  let (dtype, vsize, stride, count) ← parse_array b.kind data
  if dtype ≠ b.dtype then
    .error "Given data must match dtype of the buffer."
  else if vsize ≠ b.vsize then
    .error "Given data must match vsize of the buffer."
  else if stride ≠ b.stride then
    .error "Given data must match stride of the buffer."
  else
    let b := b.set_count count
    .ok (Buffer_set_data b data)

/-- `DataBuffer.set_subdata`: same matching as `set_data`, then the element
range checks `offset >= 0` and `offset + count <= self.count`, and finally the
element offset is turned into a byte offset (`* stride`) and delegated. -/
def DataBuffer.set_subdata (b : DataBuffer) (offset : Int) (data0 : NDArray) :
    Except String DataBuffer := do
  let data := data0.unwrapSingle
  let (dtype, vsize, stride, count) ← parse_array b.kind data
  if dtype ≠ b.dtype then
    .error "Given data must match dtype of the buffer."
  else if vsize ≠ b.vsize then
    .error "Given data must match vsize of the buffer."
  else if stride ≠ b.stride then
    .error "Given data must match stride of the buffer."
  else if offset < 0 then
    .error "Offset in set_subdata should be >= 0."
  else if offset + (count : Int) > (b.count : Int) then
    .error "Offset + data does not fit in this buffer."
  else
    Buffer_set_subdata b (offset.toNat * b.stride) data

/-- The keys of the per-kind `DTYPE2GTYPE` tables, used as the element-type
allow-lists (`ElementBuffer.DTYPE2GTYPE` and `VertexBuffer.DTYPE2GTYPE`). -/
def DTYPE2GTYPE_keys : BufKind → List String
  | .element => ["uint8", "uint16", "uint32"]
  | .vertex => ["int8", "uint8", "uint16", "int16", "float32", "float16"]

/-- `self.__class__.__name__`, as interpolated into the type error. -/
def className : BufKind → String
  | .vertex => "VertexBuffer"
  | .element => "ElementBuffer"

/-- The per-field scan of the allow-list check: the first field whose base
type name is not among the keys (iteration order = field order). -/
def firstBadField (keys : List String) : List StructField → Option BaseType
  | [] => none
  | f :: rest =>
      if f.base.npname ∈ keys then firstBadField keys rest else some f.base

/-- The "Check data type" block at the end of `DataBuffer.__init__`: for a
structured dtype every field's base type must be in the allow-list, otherwise
the dtype's own name must be; a violation raises
`TypeError("Data type not allowed for <class>: <name>")`. -/
def dtype_check (cname : String) (keys : List String) (dtype : NpDtype) :
    Except String Unit :=
  match dtype with
  | .structured fs =>
      match firstBadField keys fs with
      | some b => .error ("Data type not allowed for " ++ cname ++ ": " ++ b.npname)
      | none => .ok ()
  | .scalar b =>
      if b.npname ∈ keys then .ok ()
      else .error ("Data type not allowed for " ++ cname ++ ": " ++ b.npname)
  | .subarr b _ =>
      -- unreachable: the stored dtype is always the parsed `dtype.base`
      if b.npname ∈ keys then .ok ()
      else .error ("Data type not allowed for " ++ cname ++ ": " ++ b.npname)

/-- `DataBuffer.__init__` with an array argument: fix dtype/vsize/stride and
count from `_parse_array`, call `self.set_data(data)`, then run the type
check. -/
def mkDataBufferFromArray (kind : BufKind) (data : NDArray) : Except String DataBuffer := do
  let (dtype, vsize, stride, count) ← parse_array kind data
  let b : DataBuffer :=
    { kind := kind, handle := 0, nbytes := 0, need_resize := false,
      need_update := false, pending_data := [], offset := 0,
      dtype := dtype, vsize := vsize, stride := stride, count := count }
  let b ← b.set_data data
  dtype_check (className kind) (DTYPE2GTYPE_keys kind) b.dtype
  .ok b

/-- `DataBuffer.__init__` with a dtype argument: fix dtype/vsize/stride from
`_parse_dtype`, start with count 0, then run the type check. -/
def mkDataBufferFromDtype (kind : BufKind) (d : NpDtype) : Except String DataBuffer := do
  let (dtype, vsize, stride) ← parse_dtype kind d
  let b : DataBuffer :=
    { kind := kind, handle := 0, nbytes := 0, need_resize := false,
      need_update := false, pending_data := [], offset := 0,
      dtype := dtype, vsize := vsize, stride := stride, count := 0 }
  dtype_check (className kind) (DTYPE2GTYPE_keys kind) b.dtype
  .ok b

/-- Byte offset of a named field inside a structured element
(`self._dtype.fields[key][1]`; numpy packs fields back to back here). -/
def findFieldWithOffset (key : String) : List StructField → Nat → Option (StructField × Nat)
  | [], _ => none
  | f :: rest, acc =>
      if f.fieldName = key then some (f, acc)
      else findFieldWithOffset key rest (acc + f.byteSize)

/-- `DataBuffer.__getitem__`: only a named field of a structured buffer can be
accessed; it yields a `VertexBufferView` built from the field dtype (with its
vsize) and the field's byte offset.  The view's own state is produced by
`VertexBuffer.__init__(dtype)`, after which `__init__` of the view overrides
`_offset` and caches `_stride = base.stride`. -/
def DataBuffer.getItem (b : DataBuffer) (key : String) : Except String DataBuffer :=
  match b.dtype with
  | .structured fs =>
      match findFieldWithOffset key fs 0 with
      | some (f, off) => do
          let v ← mkDataBufferFromDtype .vertex f.toDtype
          .ok { v with offset := off, stride := b.stride }
      | none => .error ("KeyError: " ++ key)
  | _ => .error ("KeyError: " ++ key)

/-- `VertexBufferView.handle`: reads through to the base buffer on every
access (the view state only caches the result). -/
def view_handle (_v : DataBuffer) (base : DataBuffer) : Nat := base.handle

/-- `VertexBufferView.stride`: reads through to the base buffer. -/
def view_stride (_v : DataBuffer) (base : DataBuffer) : Nat := base.stride

/-- `VertexBufferView.count`: reads through to the base buffer. -/
def view_count (_v : DataBuffer) (base : DataBuffer) : Nat := base.count

/-- `VertexBufferView.set_count`: always fails.  The override is declared
without a count parameter, so the usual call `view.set_count(n)` dies with a
`TypeError` (wrong arity) and a zero-argument call reaches the declared
`RuntimeError`; we embed the declared error. -/
def view_set_count (_v : DataBuffer) : Except String DataBuffer :=
  .error "Cannot set count on a VertexBufferView."

/-- `set_data` called on a view: the inherited `DataBuffer.set_data` runs, but
`self.stride` dispatches to the view's read-through property, so the stride
match is against the base buffer's current stride; if all matches passed, the
call would then hit `self.set_count(count)`, which on a view fails (see
`view_set_count`). -/
def view_set_data (v : DataBuffer) (base : DataBuffer) (data0 : NDArray) :
    Except String DataBuffer := do
  let data := data0.unwrapSingle
  let (dtype, vsize, stride, _count) ← parse_array .vertex data
  if dtype ≠ v.dtype then
    .error "Given data must match dtype of the buffer."
  else if vsize ≠ v.vsize then
    .error "Given data must match vsize of the buffer."
  else if stride ≠ base.stride then
    .error "Given data must match stride of the buffer."
  else
    .error "set_count() takes 1 positional argument but 2 were given"

/-- `set_subdata` called on a view: `self.stride` and `self.count` read
through to the base; the final delegation runs `Buffer.set_subdata` against
the view's own (empty) byte store. -/
def view_set_subdata (v : DataBuffer) (base : DataBuffer) (offset : Int) (data0 : NDArray) :
    Except String DataBuffer := do
  let data := data0.unwrapSingle
  let (dtype, vsize, stride, count) ← parse_array .vertex data
  if dtype ≠ v.dtype then
    .error "Given data must match dtype of the buffer."
  else if vsize ≠ v.vsize then
    .error "Given data must match vsize of the buffer."
  else if stride ≠ base.stride then
    .error "Given data must match stride of the buffer."
  else if offset < 0 then
    .error "Offset in set_subdata should be >= 0."
  else if offset + (count : Int) > (base.count : Int) then
    .error "Offset + data does not fit in this buffer."
  else
    Buffer_set_subdata v (offset.toNat * base.stride) data

/-- `Buffer._create`: allocate a handle only when none exists yet.  The
concrete handle value comes from `glGenBuffers`, passed in here. -/
def Buffer_create (b : DataBuffer) (newHandle : Nat) : DataBuffer :=
  if b.handle = 0 then { b with handle := newHandle } else b

/-- Texture targets `GL_TEXTURE_2D` / `GL_TEXTURE_3D`. -/
inductive TexTarget where
  | tex2D
  | tex3D
deriving DecidableEq, Inhabited

/-- `MAP = {GL_TEXTURE_2D: 2, GL_TEXTURE_3D: 3}; ndim = MAP.get(target, 0)`. -/
def TexTarget.ndim : TexTarget → Nat
  | .tex2D => 2
  | .tex3D => 3

/-- The texture formats accepted by the `format` keyword. -/
inductive GLFormat where
  | RGB | RGBA | LUMINANCE | LUMINANCE_ALPHA | ALPHA
deriving DecidableEq, Inhabited

/-- A host array destined for a texture: dtype, shape, and the flattened
scalar payload.  Values are modelled as rationals: `convert_data` does exact
bookkeeping on them (host float rounding is idealized). -/
structure TexArray where
  dtype : BaseType
  shape : List Nat
  values : List ℚ
deriving DecidableEq, Inhabited

/-- The first slot of `_pending_data`: a full data array or, for
`set_storage`, a bare shape tuple. -/
inductive TexSource where
  | arr (a : TexArray)
  | shp (s : List Nat)
deriving DecidableEq, Inhabited

/-- The tuple `(data, None, level, format, clim)` stored in `_pending_data`
(the constant `None` offset slot is dropped). -/
structure TexPendingData where
  src : TexSource
  level : Nat
  format : Option GLFormat
  clim : Option (ℚ × ℚ)
deriving DecidableEq, Inhabited

/-- The tuple `(data, offset, level, format, clim)` appended to
`_pending_subdata`. -/
structure TexSubWrite where
  data : TexArray
  offset : List Int
  level : Nat
  format : Option GLFormat
  clim : Option (ℚ × ℚ)
deriving DecidableEq, Inhabited

/-- Texture state (`Texture` in `texture.py`), reduced to the fields the
deferred-data claims read.  `handle` comes from the `GLObject` base class
(outside the sources); modelled from the spec: 0 while uncreated.  The
filter/wrap parameter dictionaries are independent of the data queues and
are not modelled.  The sub-write queue is drained in FIFO order by
`_update`. -/
structure Texture where
  target : TexTarget
  handle : Nat
  pending_data : Option TexPendingData
  texture_shape : Option (List Nat)
  pending_subdata : List TexSubWrite
  need_update : Bool
deriving DecidableEq, Inhabited

/-- `Texture.__init__` before any data is given: no pending data, no shape,
empty sub-write queue (`set_filter`/`set_wrapping` defaults only touch the
parameter dictionaries, which are not modelled, and set the dirty flag). -/
def mkTexture (target : TexTarget) : Texture :=
  { target := target, handle := 0, pending_data := none, texture_shape := none,
    pending_subdata := [], need_update := true }

/-- `Texture.set_subdata`: requires an established shape; checks only the
rank of the data (`len(shape) in (ndim, ndim+1)`) and the arity of the offset
(`len(offset) == ndim`) — the offset and extent are never compared against
the texture shape — then enqueues the sub-write. -/
def Texture.set_subdata (t : Texture) (offset : List Int) (data : TexArray)
    (level : Nat) (format : Option GLFormat) (clim : Option (ℚ × ℚ)) :
    Except String Texture :=
  if t.texture_shape = none then
    .error "Cannot set subdata if there is not data or storage yet."
  else
    let ndim := t.target.ndim
    if ¬(data.shape.length = ndim ∨ data.shape.length = ndim + 1) then
      .error "AssertionError: len(shape) in (ndim, ndim+1)"
    else if offset.length ≠ ndim then
      .error "AssertionError: len(offset) == ndim"
    else
      let w : TexSubWrite := ⟨data, offset, level, format, clim⟩
      .ok { t with pending_subdata := t.pending_subdata ++ [w], need_update := true }

/-- `Texture.set_data`: checks the rank of the data, clears the sub-write
queue, replaces the pending full write (the stored tuple's constant `None`
offset slot is dropped), and records the new logical shape. -/
def Texture.set_data (t : Texture) (data : TexArray) (level : Nat)
    (format : Option GLFormat) (clim : Option (ℚ × ℚ)) : Except String Texture :=
  let ndim := t.target.ndim
  if ¬(data.shape.length = ndim ∨ data.shape.length = ndim + 1) then
    .error "AssertionError: len(shape) in (ndim, ndim+1)"
  else
    .ok { t with pending_subdata := [],
                 pending_data := some ⟨.arr data, level, format, clim⟩,
                 texture_shape := some data.shape,
                 need_update := true }

/-- `Texture.set_storage`: a same-shape, format-less, level-0 call is a
no-op; otherwise the shape is validated and stored as the pending full
allocation. -/
def Texture.set_storage (t : Texture) (shape : List Nat) (level : Nat)
    (format : Option GLFormat) : Except String Texture :=
  let ndim := t.target.ndim
  if format = none ∧ level = 0 ∧ t.texture_shape ≠ none ∧
      (t.texture_shape.getD []).take ndim = shape.take ndim then
    .ok t
  else if ¬(shape.length = ndim ∨ shape.length = ndim + 1) then
    .error "AssertionError: len(shape) in (ndim, ndim+1)"
  else if ¬(shape.all (0 < ·)) then
    .error "AssertionError: all([i>0 for i in shape])"
  else
    .ok { t with pending_data := some ⟨.shp shape, level, format, none⟩,
                 texture_shape := some shape,
                 need_update := true }

/-- First section of `convert_data`: determine the contrast limits when they
were not given, and move the data to a working dtype.  Copies taken only for
in-place safety do not change the modelled state.  Exactly mirrors the
if/elif dtype dispatch of the source; the trailing `raise TextureError` for
exotic dtypes (complex etc.) is unreachable in this model.  The integer
branches embed Python's `max = 2**bits; clim = (-max//2, max//2-1)` resp.
`clim = (0, max//2)` (exact on these even powers of two). -/
def convert_phase1 (data : TexArray) (clim : Option (ℚ × ℚ)) :
    TexArray × Option (ℚ × ℚ) :=
  match data.dtype with
  | .boolT => ({ data with dtype := .uint8 }, none)
  | .uint8 =>
      if clim = none then (data, clim)
      else ({ data with dtype := .float32 }, clim)
  | .float16 => (data, clim)
  | .float32 => (data, clim)
  | .float64 => ({ data with dtype := .float32 }, clim)
  | .int8 | .int16 | .int32 | .int64 =>
      let clim := match clim with
        | none =>
            let mx : Int := 2 ^ data.dtype.bits
            some ((((-mx) / 2 : Int) : ℚ), (((mx / 2 - 1 : Int)) : ℚ))
        | some c => some c
      ({ data with dtype := .float32 }, clim)
  | .uint16 | .uint32 | .uint64 =>
      let clim := match clim with
        | none =>
            let mx : Int := 2 ^ data.dtype.bits
            some (0, (((mx / 2 : Int)) : ℚ))
        | some c => some c
      ({ data with dtype := .float32 }, clim)

/-- Second section of `convert_data` ("Apply limits if necessary"): subtract
the low limit when nonzero, then scale by `1.0/(clim[1]-clim[0])` unless the
range is already unit — which divides by zero when the limits coincide. -/
def convert_phase2 (data : TexArray) : Option (ℚ × ℚ) → Except String TexArray
  | none => .ok data
  | some (c0, c1) =>
      let data := if c0 ≠ 0 then { data with values := data.values.map (· - c0) } else data
      if c1 - c0 = 1 then .ok data
      else if c1 - c0 = 0 then .error "ZeroDivisionError: float division by zero"
      else .ok { data with values := data.values.map (· * (1 / (c1 - c0))) }

/-- Final section of `convert_data` ("Convert if necessary"): `uint8`, or a
float type whose extension is available, passes through; other float data is
scaled by 256, clamped into `[0, 256]` and cast to `uint8` (the cast
truncates and wraps modulo 256, so a clamped value of exactly 256 becomes
0). -/
def convert_phase3 (f32sup f16sup : Bool) (data : TexArray) :
    Except String TexArray :=
  if data.dtype = .uint8 then .ok data
  else if data.dtype = .float16 ∧ f16sup then .ok data
  else if data.dtype = .float32 ∧ f32sup then .ok data
  else if data.dtype = .float16 ∨ data.dtype = .float32 then
    let vals := data.values.map (fun x => x * 256)
    let vals := vals.map (fun x => if x < 0 then (0 : ℚ) else x)
    let vals := vals.map (fun x => if x > 256 then (256 : ℚ) else x)
    .ok { data with dtype := .uint8, values := vals.map (fun x => ((⌊x⌋.toNat % 256 : ℕ) : ℚ)) }
  else
    .error "Error converting data type. This should not happen."

/-- `convert_data(data, clim)`: the three sections of the source function in
sequence.  The extension availability flags (`texture_float`,
`texture_half_float`) are the capability oracle `ext_available`, which lives
outside the sources; modelled from the spec as injected booleans. -/
def convert_data (f32sup f16sup : Bool) (data : TexArray) (clim : Option (ℚ × ℚ)) :
    Except String TexArray := do
  let (data, clim) := convert_phase1 data clim
  let data ← convert_phase2 data clim
  convert_phase3 f32sup f16sup data

set_option maxRecDepth 8000

deriving instance DecidableEq for Except

/-- Extract the payload of a successful call (all uses below are backed by a
proof that the call did succeed). -/
def getOkD {α : Type} [Inhabited α] : Except String α → α
  | .ok a => a
  | .error _ => default

/-- The structured dtype of the spec scenario:
`[('position', 'f4', 3), ('color', 'f4', 4)]` (itemsize 28). -/
def dtStruct : NpDtype :=
  .structured [⟨"position", .float32, [3]⟩, ⟨"color", .float32, [4]⟩]

/-- `np.zeros(100, dtStruct)`. -/
def arrStruct : NDArray := ⟨dtStruct, [100]⟩

/-- `VertexBuffer(arrStruct)`. -/
def bufStruct : DataBuffer := getOkD (mkDataBufferFromArray .vertex arrStruct)

/-- `VertexBuffer(dtStruct)` (construction from the bare dtype). -/
def bufStructD : DataBuffer := getOkD (mkDataBufferFromDtype .vertex dtStruct)

/-- `bufStruct['color']`. -/
def viewColor : DataBuffer := getOkD (bufStruct.getItem "color")

/-- `ElementBuffer(np.zeros(50, np.uint16))`. -/
def bufElem : DataBuffer := getOkD (mkDataBufferFromArray .element ⟨.scalar .uint16, [50]⟩)

/-- A 20-element `uint16` array. -/
def arrElem20 : NDArray := ⟨.scalar .uint16, [20]⟩

/-- `bufElem.set_data(arrElem20)` (a resize from 50 to 20 elements). -/
def bufElem20 : DataBuffer := getOkD (bufElem.set_data arrElem20)

/-- Every scalar base type occupies at least one byte. -/
theorem BaseType.itemsize_pos (b : BaseType) : 0 < b.itemsize := by
  cases b <;> decide

/-- In a list of positive naturals of length at least two, every member is
strictly below the total. -/
theorem lt_sum_of_mem_of_pos {l : List Nat} {x : Nat} (hx : x ∈ l)
    (hpos : ∀ y ∈ l, 0 < y) (hlen : 2 ≤ l.length) : x < l.sum := by
  obtain ⟨s, t, rfl⟩ := List.append_of_mem hx
  have hst : s ≠ [] ∨ t ≠ [] := by
    rcases s with _ | ⟨a, s⟩
    · rcases t with _ | ⟨b, t⟩
      · simp at hlen
      · exact Or.inr (by simp)
    · exact Or.inl (by simp)
  have hs : s ≠ [] → 0 < s.sum := fun hne =>
    List.sum_pos s (fun y hy => hpos y (by simp [hy])) hne
  have ht : t ≠ [] → 0 < t.sum := fun hne =>
    List.sum_pos t (fun y hy => hpos y (by simp [hy])) hne
  rcases hst with h | h
  · have := hs h
    simp [List.sum_append]
    omega
  · have := ht h
    simp [List.sum_append]
    omega

/-- A field found by `findFieldWithOffset` is a member of the field list. -/
theorem findFieldWithOffset_mem {key : String} :
    ∀ (fs : List StructField) (acc : Nat) (f : StructField) (off : Nat),
      findFieldWithOffset key fs acc = some (f, off) → f ∈ fs := by
  intro fs
  induction fs with
  | nil => intro acc f off h; simp [findFieldWithOffset] at h
  | cons g rest ih =>
      intro acc f off h
      by_cases hg : g.fieldName = key
      · simp [findFieldWithOffset, hg] at h
        simp [h.1]
      · simp [findFieldWithOffset, hg] at h
        exact List.mem_cons_of_mem _ (ih _ f off h)

/-- The stride computed by `VertexBuffer._parse_array` is always
`dtype.itemsize * vsize` of the parsed result, because the guard
`data.base is not data` is identically true. -/
theorem vertex_parse_array_stride (a : NDArray) :
    (vertex_parse_array a).2.2.1 =
      (vertex_parse_array a).1.itemsize * (vertex_parse_array a).2.1 := rfl

/-- `VertexBuffer._parse_dtype` on a field dtype extracted by
`__getitem__`: the parsed dtype is the field's scalar base and the vector
size is the flattened subarray size. -/
theorem vertex_parse_dtype_field (f : StructField) :
    (vertex_parse_dtype f.toDtype).1 = .scalar f.base ∧
    (vertex_parse_dtype f.toDtype).2.1 = f.fshape.prod := by
  rcases hs : f.fshape with _ | ⟨n, rest⟩
  · simp [StructField.toDtype, hs, vertex_parse_dtype, NpDtype.unwrapSingle,
      NpDtype.base, NpDtype.itemsize]
  · simp [StructField.toDtype, hs, vertex_parse_dtype, NpDtype.unwrapSingle,
      NpDtype.base, NpDtype.itemsize]

/-- Claim C1: `set_count(n)` with `n` different from the current element
count, or `set_data` with an array whose byte size differs from the current
capacity, discards every previously queued pending sub-write: after
`set_count` the queue is empty, and after a successful `set_data` the queue
holds exactly the single new full-range write, so a flush applies no write
enqueued against the old capacity. -/
theorem discard_pending_on_resize :
    (∀ (b : DataBuffer) (n : Nat), n ≠ b.count →
      (b.set_count n).pending_data = []) ∧
    (∀ (b : DataBuffer) (a : NDArray) (b' : DataBuffer),
      a.nbytes ≠ b.nbytes → b.set_data a = .ok b' →
      b'.pending_data = [(a.unwrapSingle, a.unwrapSingle.nbytes, 0)]) := by
  constructor
  · intro b n _hn
    rfl
  · intro b a b' _hnb h
    unfold DataBuffer.set_data at h
    cases hp : parse_array b.kind a.unwrapSingle with
    | error e =>
        simp only [hp, Bind.bind, Except.bind] at h
        exact Except.noConfusion h
    | ok info =>
        obtain ⟨dt, vs, st, ct⟩ := info
        simp only [hp, Bind.bind, Except.bind] at h
        split_ifs at h
        all_goals cases h
        rfl

/-- Claim C1 witness: at the concrete 50-element `uint16` element buffer,
resizing to 3 elements leaves an empty queue, and `set_data` with a
20-element array (40 bytes versus capacity 100) leaves exactly the one new
full write. -/
theorem discard_pending_on_resize_witness :
    (bufElem.set_count 3).pending_data = [] ∧
    bufElem20.pending_data = [(arrElem20.unwrapSingle, arrElem20.unwrapSingle.nbytes, 0)] :=
  ⟨discard_pending_on_resize.1 bufElem 3 (by decide),
   discard_pending_on_resize.2 bufElem arrElem20 bufElem20 (by decide) (by decide)⟩

/-- Claim C2 (code bug): the invariant `capacity_bytes == element_count *
stride_bytes` fails after construction (which runs `set_data`) for a vertex
buffer over a two-field structured array: the always-true `data.base is not
data` test inflates the stride to `itemsize * vsize = 28 * 7 = 196`, while
`Buffer.set_data` then stores the true byte size `100 * 28 = 2800`. -/
theorem capacity_invariant_fails_on_structured :
    mkDataBufferFromArray .vertex arrStruct = .ok bufStruct ∧
    bufStruct.nbytes = 2800 ∧
    bufStruct.count * bufStruct.stride = 19600 ∧
    bufStruct.nbytes ≠ bufStruct.count * bufStruct.stride := by decide

/-- Claim C3 (code bug): on the structured buffer, `set_subdata(14, data)`
with an 86-element array of the matching dtype satisfies the claimed validity
condition (`0 <= 14` and `14 + 86 <= count = 100`) yet is rejected, because
the byte-level check compares `14 * 196 + 86 * 28` against the capacity
`2800` computed from the true itemsize. -/
theorem set_subdata_valid_range_rejected_on_structured :
    (0 : Int) ≤ 14 ∧ 14 + 86 ≤ bufStruct.count ∧
    bufStruct.set_subdata 14 ⟨dtStruct, [86]⟩ =
      .error "Offseted data is too big for buffer." := by decide

/-- Claim C5 (code bug): for the `position:f32x3, color:f32x4` scenario over
100 elements, `vsize = 7`, `count = 100` and the `'color'` view offset `12`
match the claim, but `stride = 196`, not the claimed 28, because the
`data.base is not data` guard is identically true.  The dtype-constructed
twin of the same buffer gets stride 28 and then rejects the very array of
its own advertised dtype — the two parse paths contradict each other. -/
theorem structured_vertexbuffer_stride_miscomputed :
    bufStruct.vsize = 7 ∧ bufStruct.count = 100 ∧
    bufStruct.getItem "color" = .ok viewColor ∧ viewColor.offset = 12 ∧
    bufStruct.stride = 196 ∧ bufStruct.stride ≠ 28 ∧
    mkDataBufferFromDtype .vertex dtStruct = .ok bufStructD ∧
    bufStructD.stride = 28 ∧
    bufStructD.set_data arrStruct =
      .error "Given data must match stride of the buffer." := by decide

/-- A `(64, 64, 4)` `uint8` image. -/
def arr64 : TexArray := ⟨.uint8, [64, 64, 4], List.replicate 16384 0⟩

/-- A `(10, 10, 4)` `uint8` tile. -/
def arrTile : TexArray := ⟨.uint8, [10, 10, 4], List.replicate 400 0⟩

/-- A 2D texture that has received full data of shape `(64, 64, 4)`. -/
def texEstablished : Texture := getOkD ((mkTexture .tex2D).set_data arr64 0 none none)

/-- A small `(2, 2)` `uint8` image. -/
def arrSmallA : TexArray := ⟨.uint8, [2, 2], [0, 0, 0, 0]⟩

/-- A small `(3, 3)` `uint8` image. -/
def arrSmallB : TexArray := ⟨.uint8, [3, 3], List.replicate 9 0⟩

/-- A 2D texture with full data `(2, 2)` set and one sub-region write queued. -/
def texWithSub : Texture :=
  getOkD ((getOkD ((mkTexture .tex2D).set_data arrSmallA 0 none none)).set_subdata
    [0, 0] arrSmallA 0 none none)

/-- `texWithSub` after a second full `set_data`. -/
def texAfterFull : Texture := getOkD (texWithSub.set_data arrSmallB 0 none none)

/-- Claim C4 counterexample: with an established `(64, 64, 4)` shape on a 2D
target, `set_subdata` at offset `(60, 60)` with a `(10, 10, 4)` tile reaches
past the `[0, 64)` bound (`60 + 10 > 64`), yet the call succeeds and the
write is enqueued — it is not rejected. -/
theorem texture_oob_subdata_accepted :
    texEstablished.texture_shape = some [64, 64, 4] ∧
    (60 : Int) + 10 > 64 ∧
    (texEstablished.set_subdata [60, 60] arrTile 0 none none).isOk = true ∧
    (texEstablished.set_subdata [60, 60] arrTile 0 none none).toOption.map
      (fun t => t.pending_subdata.length) = some 1 := by decide

/-- Claim C4 (amended): `set_subdata` fails when no shape is established;
once a shape is established, the offset and extent are never compared
against the shape — any call whose data rank and offset arity match the
target is enqueued, even one reaching outside the texture. -/
theorem texture_subdata_validation :
    (∀ (t : Texture) (offset : List Int) (data : TexArray) (level : Nat)
        (format : Option GLFormat) (clim : Option (ℚ × ℚ)),
      t.texture_shape = none →
      t.set_subdata offset data level format clim =
        .error "Cannot set subdata if there is not data or storage yet.") ∧
    (∀ (t : Texture) (offset : List Int) (data : TexArray) (level : Nat)
        (format : Option GLFormat) (clim : Option (ℚ × ℚ)) (s : List Nat),
      t.texture_shape = some s →
      (data.shape.length = t.target.ndim ∨ data.shape.length = t.target.ndim + 1) →
      offset.length = t.target.ndim →
      t.set_subdata offset data level format clim =
        .ok { t with
              pending_subdata := t.pending_subdata ++ [⟨data, offset, level, format, clim⟩],
              need_update := true }) := by
  constructor
  · intro t offset data level format clim h
    simp [Texture.set_subdata, h]
  · intro t offset data level format clim s hs hrank harity
    rw [Texture.set_subdata]
    rw [if_neg (by simp [hs])]
    rw [if_neg (not_not_intro hrank)]
    rw [if_neg (not_not_intro harity)]

/-- Claim C4 witness: the two amended branches at concrete inputs — a fresh
2D texture rejects any sub-write, and the established `(2, 2)` texture
enqueues one at offset `(0, 0)`. -/
theorem texture_subdata_validation_witness :
    (mkTexture .tex2D).set_subdata [0, 0] arrSmallA 0 none none =
      .error "Cannot set subdata if there is not data or storage yet." ∧
    (getOkD ((mkTexture .tex2D).set_data arrSmallA 0 none none)).set_subdata
        [0, 0] arrSmallA 0 none none =
      .ok { getOkD ((mkTexture .tex2D).set_data arrSmallA 0 none none) with
            pending_subdata := (getOkD ((mkTexture .tex2D).set_data arrSmallA 0 none none)).pending_subdata
              ++ [⟨arrSmallA, [0, 0], 0, none, none⟩],
            need_update := true } :=
  ⟨texture_subdata_validation.1 (mkTexture .tex2D) [0, 0] arrSmallA 0 none none (by decide),
   texture_subdata_validation.2 (getOkD ((mkTexture .tex2D).set_data arrSmallA 0 none none))
     [0, 0] arrSmallA 0 none none [2, 2] (by decide) (by decide) (by decide)⟩

/-- Claim C10: every successful `Texture.set_data` empties the pending
sub-region write queue and replaces the pending full write, so a sub-region
write enqueued before a full-data set is never uploaded at the next flush. -/
theorem texture_set_data_clears_subwrites :
    ∀ (t : Texture) (data : TexArray) (level : Nat) (format : Option GLFormat)
      (clim : Option (ℚ × ℚ)) (t' : Texture),
      t.set_data data level format clim = .ok t' →
      t'.pending_subdata = [] ∧ t'.pending_data = some ⟨.arr data, level, format, clim⟩ := by
  intro t data level format clim t' h
  rw [Texture.set_data] at h
  split_ifs at h
  cases h
  exact ⟨rfl, rfl⟩

/-- Claim C10 witness: the texture `texWithSub` holds one queued sub-write;
after a full `set_data` with a new `(3, 3)` image the queue is empty and the
pending full write is the new image. -/
theorem texture_set_data_clears_subwrites_witness :
    texWithSub.pending_subdata.length = 1 ∧
    texAfterFull.pending_subdata = [] ∧
    texAfterFull.pending_data = some ⟨.arr arrSmallB, 0, none, none⟩ :=
  ⟨by decide,
   (texture_set_data_clears_subwrites texWithSub arrSmallB 0 none none texAfterFull (by decide)).1,
   (texture_set_data_clears_subwrites texWithSub arrSmallB 0 none none texAfterFull (by decide)).2⟩

/-- The element types `ElementBuffer` actually accepts. -/
def elementAllowed : List BaseType := [.uint8, .uint16, .uint32]

/-- The element types `VertexBuffer` actually accepts. -/
def vertexAllowed : List BaseType := [.int8, .uint8, .int16, .uint16, .float16, .float32]

/-- Claim C6 counterexample: the claim says vertex buffers accept all
signed/unsigned integer types (excluding only 64-bit floats), but the
32-bit integer types are rejected at construction. -/
theorem vertexbuffer_rejects_32bit_ints :
    mkDataBufferFromArray .vertex ⟨.scalar .int32, [50]⟩ =
      .error "Data type not allowed for VertexBuffer: int32" ∧
    mkDataBufferFromArray .vertex ⟨.scalar .uint32, [50]⟩ =
      .error "Data type not allowed for VertexBuffer: uint32" := by decide

/-- Claim C6 (amended): element buffers accept exactly `uint8/uint16/uint32`
(unsigned only), and vertex buffers accept exactly
`int8/uint8/int16/uint16/float16/float32` — the 8/16-bit integers and
16/32-bit floats, so 32/64-bit integers and 64-bit floats are all excluded;
a disallowed type fails with a `TypeError` naming the type and the buffer
kind. -/
theorem buffer_dtype_allowlists :
    ∀ (b : BaseType),
      ((mkDataBufferFromArray .element ⟨.scalar b, [50]⟩).isOk = true ↔ b ∈ elementAllowed) ∧
      ((mkDataBufferFromArray .vertex ⟨.scalar b, [50]⟩).isOk = true ↔ b ∈ vertexAllowed) ∧
      (b ∉ elementAllowed →
        mkDataBufferFromArray .element ⟨.scalar b, [50]⟩ =
          .error ("Data type not allowed for ElementBuffer: " ++ b.npname)) ∧
      (b ∉ vertexAllowed →
        mkDataBufferFromArray .vertex ⟨.scalar b, [50]⟩ =
          .error ("Data type not allowed for VertexBuffer: " ++ b.npname)) := by
  intro b
  cases b <;> exact ⟨by decide, by decide, by decide, by decide⟩

/-- Claim C6 witness: the allow-list theorem applied at `int32`, whose
membership hypotheses are discharged by evaluation. -/
theorem buffer_dtype_allowlists_witness :
    mkDataBufferFromArray .element ⟨.scalar .int32, [50]⟩ =
      .error ("Data type not allowed for ElementBuffer: " ++ BaseType.npname .int32) ∧
    mkDataBufferFromArray .vertex ⟨.scalar .int32, [50]⟩ =
      .error ("Data type not allowed for VertexBuffer: " ++ BaseType.npname .int32) :=
  ⟨(buffer_dtype_allowlists .int32).2.2.1 (by decide),
   (buffer_dtype_allowlists .int32).2.2.2 (by decide)⟩

/-- The final conversion step passes `float32` data through untouched when
the `texture_float` capability is present. -/
theorem convert_phase3_float32_sup (s16 : Bool) (sh : List Nat) (vals : List ℚ) :
    convert_phase3 true s16 ⟨.float32, sh, vals⟩ = .ok ⟨.float32, sh, vals⟩ := by
  unfold convert_phase3
  simp

/-- Rescaling step for the derived signed-8-bit limits `(-128, 127)`:
subtract the low limit, then scale by `1/255`. -/
theorem convert_phase2_int8_clim (sh : List Nat) (vals : List ℚ) :
    convert_phase2 ⟨.float32, sh, vals⟩ (some (-128, 127)) =
      .ok ⟨.float32, sh, vals.map (fun x => (x + 128) * (1 / 255))⟩ := by
  rw [convert_phase2]
  rw [if_pos (show (-128 : ℚ) ≠ 0 by norm_num)]
  rw [if_neg (show ¬((127 : ℚ) - (-128) = 1) by norm_num)]
  rw [if_neg (show ¬((127 : ℚ) - (-128) = 0) by norm_num)]
  have hfun : ((fun x : ℚ => x * (1 / (127 - (-128)))) ∘ fun x : ℚ => x - (-128)) =
      (fun x : ℚ => (x + 128) * (1 / 255)) := by
    funext x
    simp only [Function.comp_apply]
    norm_num
  simp only [List.map_map]
  rw [hfun]

/-- Rescaling step for derived unsigned limits `(0, c)` with `c ∉ {0, 1}`:
no subtraction, scale by `1/c`. -/
theorem convert_phase2_unsigned_clim (sh : List Nat) (vals : List ℚ) (c : ℚ)
    (hc1 : c ≠ 1) (hc0 : c ≠ 0) :
    convert_phase2 ⟨.float32, sh, vals⟩ (some (0, c)) =
      .ok ⟨.float32, sh, vals.map (fun x => x * (1 / c))⟩ := by
  rw [convert_phase2]
  rw [if_neg (show ¬((0 : ℚ) ≠ 0) by simp)]
  rw [if_neg (show ¬(c - 0 = 1) by simpa using hc1)]
  rw [if_neg (show ¬(c - 0 = 0) by simpa using hc0)]
  simp

/-- Claim C8 (amended): `uint8` data with no contrast limits passes through
`convert_data` unchanged; `int8` data with no explicit limits gets the
derived limits `(-128, 127)` and is converted to `float32` rescaled into
`[0, 1]` by `x ↦ (x + 128)/255` — it is returned as that `float32` data
(not cast to `uint8`) whenever the `texture_float` capability is present. -/
theorem convert_uint8_passthrough_int8_rescale :
    (∀ (s32 s16 : Bool) (a : TexArray), a.dtype = .uint8 →
      convert_data s32 s16 a none = .ok a) ∧
    (∀ (s16 : Bool) (a : TexArray), a.dtype = .int8 →
      convert_phase1 a none = ({ a with dtype := .float32 }, some (-128, 127)) ∧
      convert_data true s16 a none =
        .ok { a with dtype := .float32,
                     values := a.values.map (fun x => (x + 128) * (1 / 255)) }) := by
  constructor
  · intro s32 s16 a h
    obtain ⟨dt, sh, vals⟩ := a
    cases h
    rfl
  · intro s16 a h
    obtain ⟨dt, sh, vals⟩ := a
    cases h
    have h1 : convert_phase1 ⟨.int8, sh, vals⟩ none =
        (⟨.float32, sh, vals⟩, some (-128, 127)) := by
      norm_num [convert_phase1, BaseType.bits]
    refine ⟨h1, ?_⟩
    show (do
        let d ← convert_phase2 (convert_phase1 ⟨.int8, sh, vals⟩ none).1
                  (convert_phase1 ⟨.int8, sh, vals⟩ none).2
        convert_phase3 true s16 d) =
      .ok ⟨.float32, sh, vals.map (fun x => (x + 128) * (1 / 255))⟩
    rw [h1]
    show (do
        let d ← convert_phase2 ⟨.float32, sh, vals⟩ (some (-128, 127))
        convert_phase3 true s16 d) =
      .ok ⟨.float32, sh, vals.map (fun x => (x + 128) * (1 / 255))⟩
    rw [convert_phase2_int8_clim]
    show convert_phase3 true s16 ⟨.float32, sh, vals.map (fun x => (x + 128) * (1 / 255))⟩ =
      .ok ⟨.float32, sh, vals.map (fun x => (x + 128) * (1 / 255))⟩
    exact convert_phase3_float32_sup s16 sh _

/-- Claim C8 counterexample: with the float-texture capability available,
`convert_data` on the `int8` array `[127]` returns `float32` data `[1]` —
not the input rescaled into `[0, 255]` as `uint8`. -/
theorem convert_int8_output_not_uint8 :
    convert_data true true ⟨.int8, [1], [127]⟩ none = .ok ⟨.float32, [1], [1]⟩ ∧
    BaseType.float32 ≠ BaseType.uint8 := by
  constructor
  · have h1 : convert_phase1 ⟨.int8, [1], [127]⟩ none =
        (⟨.float32, [1], [127]⟩, some (-128, 127)) := by
      norm_num [convert_phase1, BaseType.bits]
    show (do
        let d ← convert_phase2 (convert_phase1 ⟨.int8, [1], [127]⟩ none).1
                  (convert_phase1 ⟨.int8, [1], [127]⟩ none).2
        convert_phase3 true true d) = .ok ⟨.float32, [1], [1]⟩
    rw [h1]
    show (do
        let d ← convert_phase2 ⟨.float32, [1], [127]⟩ (some (-128, 127))
        convert_phase3 true true d) = .ok ⟨.float32, [1], [1]⟩
    rw [convert_phase2_int8_clim]
    have hv : ([127] : List ℚ).map (fun x => (x + 128) * (1 / 255)) = [1] := by
      norm_num
    rw [hv]
    show convert_phase3 true true ⟨.float32, [1], [1]⟩ = .ok ⟨.float32, [1], [1]⟩
    exact convert_phase3_float32_sup true [1] [1]
  · decide

/-- Claim C8 witness: the amended statement applied at `uint8 [5]` (returned
unchanged) and `int8 [127]` (returned as rescaled `float32`). -/
theorem convert_uint8_passthrough_int8_rescale_witness :
    convert_data true true ⟨.uint8, [1], [5]⟩ none = .ok ⟨.uint8, [1], [5]⟩ ∧
    convert_data true true ⟨.int8, [1], [127]⟩ none =
      .ok ⟨.float32, [1], ([127] : List ℚ).map (fun x => (x + 128) * (1 / 255))⟩ :=
  ⟨convert_uint8_passthrough_int8_rescale.1 true true _ rfl,
   (convert_uint8_passthrough_int8_rescale.2 true _ rfl).2⟩

/-- `convert_data` is the sequential composition of its three sections. -/
theorem convert_data_eq (s32 s16 : Bool) (a : TexArray) (cl c1 : Option (ℚ × ℚ))
    (d1 d2 : TexArray) (h1 : convert_phase1 a cl = (d1, c1))
    (h2 : convert_phase2 d1 c1 = .ok d2) :
    convert_data s32 s16 a cl = convert_phase3 s32 s16 d2 := by
  show (do
      let d ← convert_phase2 (convert_phase1 a cl).1 (convert_phase1 a cl).2
      convert_phase3 s32 s16 d) = convert_phase3 s32 s16 d2
  rw [h1]
  show (do
      let d ← convert_phase2 d1 c1
      convert_phase3 s32 s16 d) = convert_phase3 s32 s16 d2
  rw [h2]
  rfl

/-- Claim C9 counterexample: a `uint8` array is an unsigned-integer input,
yet with no explicit limits it passes through `convert_data` unchanged — it
is not converted to floating point and no default limits are applied. -/
theorem convert_uint8_not_converted_to_float :
    convert_data true true ⟨.uint8, [1], [5]⟩ none = .ok ⟨.uint8, [1], [5]⟩ ∧
    BaseType.uint8 ≠ BaseType.float32 ∧ BaseType.uint8 ≠ BaseType.float16 ∧
    BaseType.uint8 ≠ BaseType.float64 := by
  refine ⟨rfl, by decide, by decide, by decide⟩

/-- Claim C9 (amended): for the unsigned-integer types that reach the
`uint`-parsing branch — `uint16/uint32/uint64`, i.e. every unsigned type
except `uint8`, which passes through unchanged — `convert_data` with no
explicit limits converts the data to `float32` and derives default limits
`(0, 2^(bits-1))`: half the type's range, not the full range `2^bits - 1`;
the values are accordingly scaled by `1 / 2^(bits-1)`. -/
theorem convert_unsigned_half_range :
    ∀ (b : BaseType), b = .uint16 ∨ b = .uint32 ∨ b = .uint64 →
    ∀ (a : TexArray), a.dtype = b →
      convert_phase1 a none =
        ({ a with dtype := .float32 }, some (0, (2 ^ (b.bits - 1) : ℚ))) ∧
      (2 ^ (b.bits - 1) : ℚ) ≠ 2 ^ b.bits - 1 ∧
      convert_data true true a none =
        .ok { a with dtype := .float32,
                     values := a.values.map (fun x => x * (1 / 2 ^ (b.bits - 1))) } := by
  intro b hb a ha
  obtain ⟨dt, sh, vals⟩ := a
  cases ha
  rcases hb with rfl | rfl | rfl
  · have h1 : convert_phase1 ⟨.uint16, sh, vals⟩ none =
        (⟨.float32, sh, vals⟩, some (0, (2 ^ (BaseType.bits .uint16 - 1) : ℚ))) := by
      norm_num [convert_phase1, BaseType.bits]
    refine ⟨h1, by norm_num [BaseType.bits], ?_⟩
    rw [convert_data_eq true true _ none _ _ _ h1
      (convert_phase2_unsigned_clim sh vals _ (by norm_num [BaseType.bits])
        (by norm_num [BaseType.bits]))]
    exact convert_phase3_float32_sup true sh _
  · have h1 : convert_phase1 ⟨.uint32, sh, vals⟩ none =
        (⟨.float32, sh, vals⟩, some (0, (2 ^ (BaseType.bits .uint32 - 1) : ℚ))) := by
      norm_num [convert_phase1, BaseType.bits]
    refine ⟨h1, by norm_num [BaseType.bits], ?_⟩
    rw [convert_data_eq true true _ none _ _ _ h1
      (convert_phase2_unsigned_clim sh vals _ (by norm_num [BaseType.bits])
        (by norm_num [BaseType.bits]))]
    exact convert_phase3_float32_sup true sh _
  · have h1 : convert_phase1 ⟨.uint64, sh, vals⟩ none =
        (⟨.float32, sh, vals⟩, some (0, (2 ^ (BaseType.bits .uint64 - 1) : ℚ))) := by
      norm_num [convert_phase1, BaseType.bits]
    refine ⟨h1, by norm_num [BaseType.bits], ?_⟩
    rw [convert_data_eq true true _ none _ _ _ h1
      (convert_phase2_unsigned_clim sh vals _ (by norm_num [BaseType.bits])
        (by norm_num [BaseType.bits]))]
    exact convert_phase3_float32_sup true sh _

/-- Claim C9 witness: at a concrete `uint16` array `[32768]` the derived
limits are `(0, 2^15) = (0, 32768)` and the output is the rescaled
`float32` data. -/
theorem convert_unsigned_half_range_witness :
    convert_phase1 ⟨.uint16, [1], [32768]⟩ none =
      (⟨.float32, [1], [32768]⟩, some (0, (2 ^ (BaseType.bits .uint16 - 1) : ℚ))) ∧
    convert_data true true ⟨.uint16, [1], [32768]⟩ none =
      .ok ⟨.float32, [1],
        ([32768] : List ℚ).map (fun x => x * (1 / 2 ^ (BaseType.bits .uint16 - 1)))⟩ :=
  ⟨(convert_unsigned_half_range .uint16 (Or.inl rfl) ⟨.uint16, [1], [32768]⟩ rfl).1,
   (convert_unsigned_half_range .uint16 (Or.inl rfl) ⟨.uint16, [1], [32768]⟩ rfl).2.2⟩

/-- `set_nbytes` does not touch the element count. -/
theorem Buffer_set_nbytes_count (b : DataBuffer) (m : Nat) :
    (Buffer_set_nbytes b m).count = b.count := by
  unfold Buffer_set_nbytes
  split <;> rfl

/-- `set_count` stores exactly the requested count. -/
theorem set_count_count (b : DataBuffer) (n : Nat) : (b.set_count n).count = n := by
  unfold DataBuffer.set_count
  rw [Buffer_set_nbytes_count]

/-- A field of a multi-field structured dtype with no zero-sized axes is
strictly smaller than any stride at least the whole element's itemsize. -/
theorem field_byteSize_lt_stride {fs : List StructField} {f : StructField} {stride : Nat}
    (hmem : f ∈ fs) (hlen : 2 ≤ fs.length) (hpos : ∀ g ∈ fs, 0 < g.fshape.prod)
    (hstride : (NpDtype.structured fs).itemsize ≤ stride) :
    f.base.itemsize * f.fshape.prod < stride := by
  have hlt : f.byteSize < (fs.map StructField.byteSize).sum := by
    apply lt_sum_of_mem_of_pos (List.mem_map_of_mem _ hmem)
    · intro y hy
      obtain ⟨g, hg, rfl⟩ := List.mem_map.1 hy
      exact Nat.mul_pos (BaseType.itemsize_pos _) (hpos g hg)
    · simpa using hlen
  calc f.base.itemsize * f.fshape.prod = f.byteSize := rfl
    _ < (fs.map StructField.byteSize).sum := hlt
    _ = (NpDtype.structured fs).itemsize := rfl
    _ ≤ stride := hstride

/-- Characterization of a view produced by `__getitem__` on a structured
buffer: its dtype is the field's scalar base, its vsize the field's
flattened size, and its cached stride is the parent's stride. -/
theorem getItem_view_fields {b : DataBuffer} {fs : List StructField} {key : String}
    {v : DataBuffer} (hdt : b.dtype = .structured fs) (h : b.getItem key = .ok v) :
    ∃ f, f ∈ fs ∧ v.dtype = .scalar f.base ∧ v.vsize = f.fshape.prod ∧
      v.stride = b.stride := by
  unfold DataBuffer.getItem at h
  rw [hdt] at h
  change (match findFieldWithOffset key fs 0 with
    | some (f, off) => do
        let v0 ← mkDataBufferFromDtype BufKind.vertex f.toDtype
        Except.ok { v0 with offset := off, stride := b.stride }
    | none => Except.error ("KeyError: " ++ key)) = Except.ok v at h
  cases hff : findFieldWithOffset key fs 0 with
  | none =>
      rw [hff] at h
      exact Except.noConfusion h
  | some p =>
      obtain ⟨f, off⟩ := p
      rw [hff] at h
      change (do
          let v0 ← mkDataBufferFromDtype BufKind.vertex f.toDtype
          Except.ok { v0 with offset := off, stride := b.stride }) = Except.ok v at h
      refine ⟨f, findFieldWithOffset_mem fs 0 f off hff, ?_⟩
      cases hmk : mkDataBufferFromDtype .vertex f.toDtype with
      | error e =>
          simp only [hmk, Bind.bind, Except.bind] at h
          exact Except.noConfusion h
      | ok v0 =>
          simp only [hmk, Bind.bind, Except.bind] at h
          cases h
          unfold mkDataBufferFromDtype at hmk
          obtain ⟨⟨pd, pv, ps⟩, hpd⟩ : ∃ x, vertex_parse_dtype f.toDtype = x := ⟨_, rfl⟩
          simp only [parse_dtype, hpd, Bind.bind, Except.bind] at hmk
          cases hchk : dtype_check (className .vertex) (DTYPE2GTYPE_keys .vertex) pd with
          | error e =>
              rw [hchk] at hmk
              exact Except.noConfusion hmk
          | ok u =>
              cases u
              rw [hchk] at hmk
              cases hmk
              have hf := vertex_parse_dtype_field f
              rw [hpd] at hf
              exact ⟨hf.1, hf.2, rfl⟩

/-- Control-flow of `set_data` called on a view, given the parse result. -/
theorem view_set_data_eq (v base : DataBuffer) (a : NDArray) (dt : NpDtype)
    (vs st ct : Nat) (h : vertex_parse_array a.unwrapSingle = (dt, vs, st, ct)) :
    view_set_data v base a =
      if dt ≠ v.dtype then .error "Given data must match dtype of the buffer."
      else if vs ≠ v.vsize then .error "Given data must match vsize of the buffer."
      else if st ≠ base.stride then .error "Given data must match stride of the buffer."
      else .error "set_count() takes 1 positional argument but 2 were given" := by
  unfold view_set_data
  simp only [parse_array, h, Bind.bind, Except.bind]

/-- Control-flow of `set_subdata` called on a view, given the parse result. -/
theorem view_set_subdata_eq (v base : DataBuffer) (off : Int) (a : NDArray)
    (dt : NpDtype) (vs st ct : Nat)
    (h : vertex_parse_array a.unwrapSingle = (dt, vs, st, ct)) :
    view_set_subdata v base off a =
      if dt ≠ v.dtype then .error "Given data must match dtype of the buffer."
      else if vs ≠ v.vsize then .error "Given data must match vsize of the buffer."
      else if st ≠ base.stride then .error "Given data must match stride of the buffer."
      else if off < 0 then .error "Offset in set_subdata should be >= 0."
      else if off + (ct : Int) > (base.count : Int) then
        .error "Offset + data does not fit in this buffer."
      else Buffer_set_subdata v (off.toNat * base.stride) a.unwrapSingle := by
  unfold view_set_subdata
  simp only [parse_array, h, Bind.bind, Except.bind]

/-- Claim C7: a view obtained by indexing a structured buffer reads `stride`,
`count` and `handle` through to the parent on every access — so they equal
the parent's current values even after the parent is resized (`set_count`)
or recreated (`_create` after a delete) — and the view cannot set count,
data or sub-data: `set_count` always raises, while `set_data`/`set_subdata`
always fail because no array can match the parent's element stride (a single
field is strictly smaller than the whole structured element). -/
theorem view_readthrough_and_rejects_sets :
    ∀ (base : DataBuffer) (fs : List StructField) (key : String) (v : DataBuffer),
      base.dtype = .structured fs →
      2 ≤ fs.length →
      (∀ g ∈ fs, 0 < g.fshape.prod) →
      (NpDtype.structured fs).itemsize ≤ base.stride →
      base.getItem key = .ok v →
      (∀ p : DataBuffer, view_stride v p = p.stride ∧ view_count v p = p.count ∧
        view_handle v p = p.handle) ∧
      (∀ n : Nat, view_count v (base.set_count n) = n) ∧
      (∀ hnd : Nat, base.handle = 0 → view_handle v (Buffer_create base hnd) = hnd) ∧
      view_set_count v = .error "Cannot set count on a VertexBufferView." ∧
      (∀ a : NDArray, ∃ e, view_set_data v base a = .error e) ∧
      (∀ (off : Int) (a : NDArray), ∃ e, view_set_subdata v base off a = .error e) := by
  intro base fs key v hdt hlen hpos hstride hget
  obtain ⟨f, hmem, hvdt, hvvs, _hvstr⟩ := getItem_view_fields hdt hget
  have hmismatch : ∀ (a : NDArray) (dt : NpDtype) (vs st ct : Nat),
      vertex_parse_array a.unwrapSingle = (dt, vs, st, ct) →
      dt = v.dtype → vs = v.vsize → st ≠ base.stride := by
    intro a dt vs st ct hpa h1 h2
    have hs := vertex_parse_array_stride a.unwrapSingle
    rw [hpa] at hs
    have hs' : st = dt.itemsize * vs := hs
    rw [hs', h1, h2, hvdt, hvvs]
    exact Nat.ne_of_lt (field_byteSize_lt_stride hmem hlen hpos hstride)
  refine ⟨fun p => ⟨rfl, rfl, rfl⟩, ?_, ?_, rfl, ?_, ?_⟩
  · intro n
    show (base.set_count n).count = n
    exact set_count_count base n
  · intro hnd h0
    show (Buffer_create base hnd).handle = hnd
    unfold Buffer_create
    rw [if_pos h0]
  · intro a
    obtain ⟨⟨dt, vs, st, ct⟩, hpa⟩ : ∃ x, vertex_parse_array a.unwrapSingle = x := ⟨_, rfl⟩
    rw [view_set_data_eq v base a dt vs st ct hpa]
    by_cases h1 : dt ≠ v.dtype
    · rw [if_pos h1]
      exact ⟨_, rfl⟩
    · rw [if_neg h1]
      push_neg at h1
      by_cases h2 : vs ≠ v.vsize
      · rw [if_pos h2]
        exact ⟨_, rfl⟩
      · rw [if_neg h2]
        push_neg at h2
        rw [if_pos (hmismatch a dt vs st ct hpa h1 h2)]
        exact ⟨_, rfl⟩
  · intro off a
    obtain ⟨⟨dt, vs, st, ct⟩, hpa⟩ : ∃ x, vertex_parse_array a.unwrapSingle = x := ⟨_, rfl⟩
    rw [view_set_subdata_eq v base off a dt vs st ct hpa]
    by_cases h1 : dt ≠ v.dtype
    · rw [if_pos h1]
      exact ⟨_, rfl⟩
    · rw [if_neg h1]
      push_neg at h1
      by_cases h2 : vs ≠ v.vsize
      · rw [if_pos h2]
        exact ⟨_, rfl⟩
      · rw [if_neg h2]
        push_neg at h2
        rw [if_pos (hmismatch a dt vs st ct hpa h1 h2)]
        exact ⟨_, rfl⟩

/-- Claim C7 witness: the view `bufStruct['color']` of the concrete
structured buffer, with all structural hypotheses discharged by
evaluation. -/
theorem view_readthrough_and_rejects_sets_witness :
    (∀ p : DataBuffer, view_stride viewColor p = p.stride ∧
      view_count viewColor p = p.count ∧ view_handle viewColor p = p.handle) ∧
    (∀ n : Nat, view_count viewColor (bufStruct.set_count n) = n) ∧
    (∀ hnd : Nat, bufStruct.handle = 0 →
      view_handle viewColor (Buffer_create bufStruct hnd) = hnd) ∧
    view_set_count viewColor = .error "Cannot set count on a VertexBufferView." ∧
    (∀ a : NDArray, ∃ e, view_set_data viewColor bufStruct a = .error e) ∧
    (∀ (off : Int) (a : NDArray), ∃ e, view_set_subdata viewColor bufStruct off a = .error e) :=
  view_readthrough_and_rejects_sets bufStruct
    [⟨"position", .float32, [3]⟩, ⟨"color", .float32, [4]⟩] "color" viewColor
    (by decide) (by decide) (by decide) (by decide) (by decide)
